import Mathlib

/-!
Verification of the build-deploy orchestration core of droid-cli.

Shallow embedding of:
- `src/core/adb.ts` (`analyzeInstallError`, `installApk`, `startEmulator`,
  device filtering helpers),
- `src/commands/build.ts` (`ensureDeviceAvailable`, `launchAppAndComplete`,
  `handleInstallationFailure`, `handleInsufficientStorage`,
  `handleDuplicatePackage`, `buildCommand`),
- `src/ui/interactive-menu.ts` (the keep-alive build-flow loop).

External collaborators (subprocess calls, interactive prompts) are modelled
as oracle values carried in environment records; every observable action
(prompt issued, adb call made, value persisted) is recorded in an event
trace so that temporal/frame claims can be stated as properties of the
trace.
-/

namespace DroidCli

/-- Occurrence search: does `pat` occur as a contiguous run inside the list? -/
def infixSearch (pat : List Char) : List Char → Bool
  | [] => pat.isPrefixOf ([] : List Char)
  | c :: cs => pat.isPrefixOf (c :: cs) || infixSearch pat cs

/-- JavaScript string-containment test (`String.prototype.includes`). -/
def strIncludes (s pat : String) : Bool :=
  infixSearch pat.toList s.toList

/-- JavaScript `String.prototype.toLowerCase`, character by character (the
installer diagnostics the code lowercases are ASCII). -/
def strToLower (s : String) : String :=
  String.mk (s.data.map Char.toLower)

/-- JavaScript truthiness of a `string | undefined` value: `undefined` and
the empty string are falsy. -/
def jsTruthy : Option String → Bool
  | none => false
  | some s => !(s == "")

/-- JavaScript `a || b` for `a : string | undefined`, `b : string`. -/
def jsOr (a : Option String) (b : String) : String :=
  match a with
  | some s => if s == "" then b else s
  | none => b

/-- JavaScript `a || b` for two `string | undefined` values. -/
def jsOrO (a b : Option String) : Option String :=
  if jsTruthy a then a else b

/-- JavaScript template interpolation of a `string | undefined` value. -/
def jsInterp : Option String → String
  | some s => s
  | none => "undefined"

/-- Connection state of a device (`AndroidDevice.state` in `src/core/adb.ts`);
`device` is the ready state. -/
inductive DeviceState
  | device
  | offline
  | unauthorized
  deriving DecidableEq, Repr

/-- Kind of a device (`AndroidDevice.type` in `src/core/adb.ts`). -/
inductive DeviceKind
  | emulator
  | device
  deriving DecidableEq, Repr

/-- `AndroidDevice` from `src/core/adb.ts`. -/
structure AndroidDevice where
  id : String
  name : String
  state : DeviceState
  type : DeviceKind
  apiLevel : Option Nat := none
  model : Option String := none
  deriving DecidableEq, Repr

/-- `AvailableEmulator` from `src/core/adb.ts`. -/
structure AvailableEmulator where
  name : String
  displayName : String
  deriving DecidableEq, Repr

/-- The `errorType` field of `InstallResult` in `src/core/adb.ts`. -/
inductive InstallErrorType
  | INSUFFICIENT_STORAGE
  | DUPLICATE_PACKAGE
  | PERMISSION_DENIED
  | INVALID_APK
  | UNKNOWN
  deriving DecidableEq, Repr

/-- `InstallResult` from `src/core/adb.ts`. -/
structure InstallResult where
  success : Bool
  error : Option String := none
  errorType : Option InstallErrorType := none
  suggestion : Option String := none
  deriving DecidableEq, Repr

/-- Suggestion text for `INSUFFICIENT_STORAGE` (`src/core/adb.ts:209`). -/
def storageSuggestion : String :=
  "The device is running out of storage space. Try uninstalling unused apps or clearing app data."

/-- Suggestion text for `DUPLICATE_PACKAGE` (`src/core/adb.ts:218`). -/
def duplicateSuggestion : String :=
  "The app is already installed. Try uninstalling it first or use the force reinstall option."

/-- Suggestion text for `INVALID_APK` (`src/core/adb.ts:227`). -/
def invalidApkSuggestion : String :=
  "The APK file is corrupted or invalid. Try rebuilding the project."

/-- Suggestion text for `PERMISSION_DENIED` (`src/core/adb.ts:236`). -/
def permissionSuggestion : String :=
  "Installation blocked by device security. Enable \"Install from unknown sources\" or check device permissions."

/-- Suggestion text for `UNKNOWN` (`src/core/adb.ts:244`). -/
def unknownSuggestion : String :=
  "Check device connection and try again. If the problem persists, try restarting ADB or the device."

/-- `AdbManager.analyzeInstallError` from `src/core/adb.ts:201-246`: lowercase
the raw diagnostic, then test substrings in order, first match wins. -/
def analyzeInstallError (errorOutput : String) : InstallResult :=
  let error := strToLower errorOutput
  if strIncludes error "install_failed_insufficient_storage" then
    { success := false, error := some errorOutput,
      errorType := some .INSUFFICIENT_STORAGE, suggestion := some storageSuggestion }
  else if strIncludes error "install_failed_already_exists" ||
      strIncludes error "install_failed_duplicate_package" then
    { success := false, error := some errorOutput,
      errorType := some .DUPLICATE_PACKAGE, suggestion := some duplicateSuggestion }
  else if strIncludes error "install_failed_invalid_apk" ||
      strIncludes error "failed to parse" then
    { success := false, error := some errorOutput,
      errorType := some .INVALID_APK, suggestion := some invalidApkSuggestion }
  else if strIncludes error "permission denied" ||
      strIncludes error "install_failed_user_restricted" then
    { success := false, error := some errorOutput,
      errorType := some .PERMISSION_DENIED, suggestion := some permissionSuggestion }
  else
    { success := false, error := some errorOutput,
      errorType := some .UNKNOWN, suggestion := some unknownSuggestion }

/-- The classification table of spec §4.2, as explicit data, with the
substrings corrected to the ones the code actually tests (the code demands
the full `install_failed_` prefixed markers except for
"failed to parse" and "permission denied"). Order matters. -/
def installErrorTable : List (List String × InstallErrorType × String) :=
  [ (["install_failed_insufficient_storage"],
      (InstallErrorType.INSUFFICIENT_STORAGE, storageSuggestion)),
    (["install_failed_already_exists", "install_failed_duplicate_package"],
      (InstallErrorType.DUPLICATE_PACKAGE, duplicateSuggestion)),
    (["install_failed_invalid_apk", "failed to parse"],
      (InstallErrorType.INVALID_APK, invalidApkSuggestion)),
    (["permission denied", "install_failed_user_restricted"],
      (InstallErrorType.PERMISSION_DENIED, permissionSuggestion)) ]

/-- Table-driven classifier following the words of spec §4.2 (case-insensitive
substring matching against an ordered table, first match wins, `Unknown` with
a generic suggestion when nothing matches), with the corrected substrings of
`installErrorTable`. -/
def classifyDiagnostic (raw : String) : InstallErrorType × String :=
  let t := strToLower raw
  match installErrorTable.find? (fun row => row.1.any (fun pat => strIncludes t pat)) with
  | some row => row.2
  | none => (InstallErrorType.UNKNOWN, unknownSuggestion)

/-- C2 counterexample: the claim says every text containing
"insufficient_storage" is classified `InsufficientStorage`; the input
"insufficient_storage" does contain that substring, yet the code classifies
it `UNKNOWN`, because the code matches the full marker
"install_failed_insufficient_storage". -/
theorem C2_counterexample :
    strIncludes (strToLower "insufficient_storage") "insufficient_storage" = true ∧
    (analyzeInstallError "insufficient_storage").errorType = some InstallErrorType.UNKNOWN ∧
    some InstallErrorType.UNKNOWN ≠ some InstallErrorType.INSUFFICIENT_STORAGE := by
  refine ⟨by decide, by decide, by decide⟩

/-- C2 amended: `analyzeInstallError` is a pure function of the raw diagnostic
text equal to case-insensitive, ordered, first-match-wins matching against
`installErrorTable` (whose substrings carry the `install_failed_` prefixes the
code actually tests), yielding `UNKNOWN` with the generic suggestion when
nothing matches; the raw text is always echoed back in `error`. -/
theorem C2_classifier_refines_table (raw : String) :
    analyzeInstallError raw =
      { success := false, error := some raw,
        errorType := some (classifyDiagnostic raw).1,
        suggestion := some (classifyDiagnostic raw).2 } := by
  unfold analyzeInstallError classifyDiagnostic installErrorTable
  by_cases h1 : strIncludes (strToLower raw) "install_failed_insufficient_storage" <;>
    by_cases h2 : strIncludes (strToLower raw) "install_failed_already_exists" <;>
      by_cases h3 : strIncludes (strToLower raw) "install_failed_duplicate_package" <;>
        by_cases h4 : strIncludes (strToLower raw) "install_failed_invalid_apk" <;>
          by_cases h5 : strIncludes (strToLower raw) "failed to parse" <;>
            by_cases h6 : strIncludes (strToLower raw) "permission denied" <;>
              by_cases h7 : strIncludes (strToLower raw) "install_failed_user_restricted" <;>
                simp [h1, h2, h3, h4, h5, h6, h7, List.find?, List.any]

/-- Observable actions of the orchestration core: interactive prompts issued,
external adb/gradle invocations, persisted-configuration writes, and the
warnings the claims talk about. -/
inductive Event
  | confirmBootPrompt
  | emulatorSelectPrompt
  | variantPrompt (promptDefault : String)
  | deviceSelectPrompt
  | storageChoicePrompt
  | duplicateChoicePrompt
  | retryMenuPrompt
  | postSuccessPrompt
  | bootEmulator (name : String)
  | gradleBuild (variant : String)
  | installCall
  | classifyCall (text : String)
  | uninstallCall
  | clearDataCall
  | launchCall
  | warnLaunchFailed
  | persistVariant (v : String)
  | persistDevice (id : String)
  deriving DecidableEq, Repr

/-- `AdbManager.getAvailableDevices` (`src/core/adb.ts:425-427`): devices whose
connection state is the ready state. -/
def getAvailableDevices (devices : List AndroidDevice) : List AndroidDevice :=
  devices.filter (fun d => d.state == DeviceState.device)

/-- `AdbManager.getRunningEmulators` (`src/core/adb.ts:433-435`). -/
def getRunningEmulators (devices : List AndroidDevice) : List AndroidDevice :=
  devices.filter (fun d => d.type == DeviceKind.emulator && d.state == DeviceState.device)

/-- `AdbManager.getDeviceById` (`src/core/adb.ts:421-423`). -/
def getDeviceById (devices : List AndroidDevice) (deviceId : String) : Option AndroidDevice :=
  devices.find? (fun d => d.id == deviceId)

/-- Result of `AdbManager.startEmulator`: the returned boolean, plus whether a
ready emulator was actually observed inside the bounded poll (`ready`), which
the source only logs. -/
structure StartEmulatorResult where
  returned : Bool
  ready : Bool
  deriving DecidableEq, Repr

/-- Collaborator oracle for `startEmulator`: whether spawning the emulator
process throws, and the device-registry snapshot each poll iteration's
`getDevices()` call returns (missing entries mean an empty registry). -/
structure EmulatorBootEnv where
  spawnFails : Bool
  pollSnapshots : List (List AndroidDevice)
  deriving DecidableEq, Repr

/-- One poll iteration's ready-emulator lookup (`src/core/adb.ts:490-498`):
among running emulators, find one whose name contains the requested AVD name
or whose id contains "emulator". -/
def emulatorPollFind (emulatorName : String) (snap : List AndroidDevice) : Option AndroidDevice :=
  let runningEmulators := getRunningEmulators snap
  if runningEmulators.length > 0 then
    runningEmulators.find? (fun e => strIncludes e.name emulatorName || strIncludes e.id "emulator")
  else none

/-- The bounded readiness poll of `startEmulator` (`src/core/adb.ts:483-501`):
`attempt` is the current index into the snapshot oracle, `fuel` the remaining
attempts. On exhaustion the source warns and still returns `true`. -/
def startEmulatorPoll (emulatorName : String) (snaps : List (List AndroidDevice)) :
    Nat → Nat → StartEmulatorResult
  | _, 0 => { returned := true, ready := false }
  | attempt, fuel + 1 =>
    match emulatorPollFind emulatorName (snaps.getD attempt []) with
    | some _ => { returned := true, ready := true }
    | none => startEmulatorPoll emulatorName snaps (attempt + 1) fuel

/-- The documented default of 30 poll attempts (`src/core/adb.ts:484`). -/
def maxBootAttempts : Nat := 30

/-- `AdbManager.startEmulator` (`src/core/adb.ts:467-510`): spawn the emulator
process (an exception yields `false`), then run the bounded readiness poll;
the poll returns `true` both when a ready emulator is found and when the
attempts are exhausted. -/
def startEmulator (emulatorName : String) (env : EmulatorBootEnv) : StartEmulatorResult :=
  if env.spawnFails then { returned := false, ready := false }
  else startEmulatorPoll emulatorName env.pollSnapshots 0 maxBootAttempts

/-- Outcome shape `{ success: boolean; error?: string }` used by
`ensureDeviceAvailable` and `buildCommand` in `src/commands/build.ts`. -/
structure BuildResult where
  success : Bool
  error : Option String := none
  deriving DecidableEq, Repr

/-- Collaborator oracle for `ensureDeviceAvailable`: the device registry at
entry, emulator-tool availability, the AVD list, the two prompt answers, the
boot-poll oracle, and the registry snapshot of the refresh performed right
after a successful boot. -/
structure ProvisionEnv where
  devices0 : List AndroidDevice
  canStartEmulator : Bool
  availableEmulators : List AvailableEmulator
  confirmStart : Bool
  emulatorChoice : String
  boot : EmulatorBootEnv
  devicesAfterBoot : List AndroidDevice
  deriving DecidableEq, Repr

/-- The emulator picked at `src/commands/build.ts:52-67`: the single AVD when
exactly one exists, otherwise the user's selection. -/
def selectedEmulatorName (env : ProvisionEnv) : String :=
  if env.availableEmulators.length == 1 then
    (env.availableEmulators.headD { name := "", displayName := "" }).name
  else env.emulatorChoice

/-- The tail of `ensureDeviceAvailable` after the user accepted the boot
(`src/commands/build.ts:69-88`): start the emulator, refresh the device list,
and succeed only if a ready device is now visible. -/
def bootAndRecheck (evs : List Event) (env : ProvisionEnv) : BuildResult × List Event :=
  let sel := selectedEmulatorName env
  let evs := evs ++ [Event.bootEmulator sel]
  if (startEmulator sel env.boot).returned then
    if (getAvailableDevices env.devicesAfterBoot).length > 0 then
      ({ success := true }, evs)
    else
      ({ success := false,
         error := some "Emulator started but may still be booting. Please try again in a moment." }, evs)
  else
    ({ success := false, error := some "Failed to start emulator." }, evs)

/-- `ensureDeviceAvailable` from `src/commands/build.ts:19-109`. -/
def ensureDeviceAvailable (env : ProvisionEnv) : BuildResult × List Event :=
  let availableDevices := getAvailableDevices env.devices0
  if availableDevices.length == 0 then
    if env.canStartEmulator then
      if env.availableEmulators.length > 0 then
        if env.confirmStart then
          if env.availableEmulators.length == 1 then
            bootAndRecheck [Event.confirmBootPrompt] env
          else
            bootAndRecheck [Event.confirmBootPrompt, Event.emulatorSelectPrompt] env
        else
          ({ success := false, error := some "No devices available and emulator startup declined." },
            [Event.confirmBootPrompt])
      else
        ({ success := false, error := some "No emulators found. Please create an AVD or connect a physical device." }, [])
    else
      ({ success := false, error := some "Emulator command not found. Please connect a physical device." }, [])
  else
    ({ success := true }, [])

/-- Helper: absent a spawn exception, `startEmulator` always returns `true`,
whether or not the poll confirmed readiness. -/
theorem startEmulatorPoll_returned (emulatorName : String) (snaps : List (List AndroidDevice)) :
    ∀ fuel attempt, (startEmulatorPoll emulatorName snaps attempt fuel).returned = true := by
  intro fuel
  induction fuel with
  | zero => intro attempt; rfl
  | succ n ih =>
    intro attempt
    unfold startEmulatorPoll
    cases emulatorPollFind emulatorName (snaps.getD attempt []) with
    | none => simpa using ih (attempt + 1)
    | some d => rfl

/-- C9: with no ready device, `ensureDeviceAvailable` fails with the
emulator-tool-missing message when the emulator command is unavailable, with
the no-AVDs message when the AVD list is empty, and with the user-declined
message when the boot confirmation is refused — and in each of these cases no
emulator boot is attempted. -/
theorem C9_provision_failures (env : ProvisionEnv)
    (h : getAvailableDevices env.devices0 = []) :
    (env.canStartEmulator = false →
      ensureDeviceAvailable env =
        ({ success := false, error := some "Emulator command not found. Please connect a physical device." }, []) ∧
      ∀ n, Event.bootEmulator n ∉ (ensureDeviceAvailable env).2) ∧
    (env.canStartEmulator = true → env.availableEmulators = [] →
      ensureDeviceAvailable env =
        ({ success := false, error := some "No emulators found. Please create an AVD or connect a physical device." }, []) ∧
      ∀ n, Event.bootEmulator n ∉ (ensureDeviceAvailable env).2) ∧
    (env.canStartEmulator = true → env.availableEmulators ≠ [] → env.confirmStart = false →
      ensureDeviceAvailable env =
        ({ success := false, error := some "No devices available and emulator startup declined." },
          [Event.confirmBootPrompt]) ∧
      ∀ n, Event.bootEmulator n ∉ (ensureDeviceAvailable env).2) := by
  refine ⟨?_, ?_, ?_⟩
  · intro hc
    have he : ensureDeviceAvailable env =
        ({ success := false, error := some "Emulator command not found. Please connect a physical device." }, []) := by
      unfold ensureDeviceAvailable
      simp [h, hc]
    exact ⟨he, by simp [he]⟩
  · intro hc hemu
    have he : ensureDeviceAvailable env =
        ({ success := false, error := some "No emulators found. Please create an AVD or connect a physical device." }, []) := by
      unfold ensureDeviceAvailable
      simp [h, hc, hemu]
    exact ⟨he, by simp [he]⟩
  · intro hc hemu hdecl
    have hlen : (env.availableEmulators.length > 0) := by
      cases hl : env.availableEmulators with
      | nil => exact absurd hl hemu
      | cons a l => simp [hl]
    have he : ensureDeviceAvailable env =
        ({ success := false, error := some "No devices available and emulator startup declined." },
          [Event.confirmBootPrompt]) := by
      unfold ensureDeviceAvailable
      simp [h, hc, hdecl, hlen]
    exact ⟨he, by simp [he]⟩

/-- C9 witness: a concrete environment exercising the emulator-tool-missing
branch of `C9_provision_failures`. -/
theorem C9_provision_failures_witness :
    ensureDeviceAvailable
        { devices0 := [], canStartEmulator := false, availableEmulators := [],
          confirmStart := false, emulatorChoice := "",
          boot := { spawnFails := false, pollSnapshots := [] }, devicesAfterBoot := [] } =
      ({ success := false,
         error := some "Emulator command not found. Please connect a physical device." }, []) :=
  ((C9_provision_failures _ (by decide)).1 (by decide)).1

/-- Helper: absent a spawn exception, the first component of `bootAndRecheck`
depends only on the post-boot device refresh: success iff a ready device is
visible, otherwise the hard "may still be booting" failure. -/
theorem bootAndRecheck_fst (evs : List Event) (env : ProvisionEnv)
    (h : env.boot.spawnFails = false) :
    (bootAndRecheck evs env).1 =
      (if (getAvailableDevices env.devicesAfterBoot).length > 0 then
        { success := true, error := none }
      else
        { success := false,
          error := some "Emulator started but may still be booting. Please try again in a moment." }) := by
  unfold bootAndRecheck startEmulator
  simp only [h, Bool.false_eq_true, if_false, startEmulatorPoll_returned, if_true]
  split <;> rfl

/-- Provisioning environment reproducing the C3 scenario: no device, one AVD,
the user accepts the boot, the emulator process starts but no ready emulator
ever appears, neither during the 30-attempt poll nor in the refresh after it. -/
def C3env : ProvisionEnv :=
  { devices0 := [], canStartEmulator := true,
    availableEmulators := [{ name := "Pixel_6_API_34", displayName := "Pixel 6 API 34" }],
    confirmStart := true, emulatorChoice := "",
    boot := { spawnFails := false, pollSnapshots := [] },
    devicesAfterBoot := [] }

/-- C3 counterexample: when the bounded readiness poll is exhausted without a
ready emulator, `startEmulator` itself returns `true` (the soft success with
the "may still be booting" warning), but `ensureDeviceAvailable` then
re-queries the registry and returns `{success: false}` with the "may still be
booting" error — a hard failure, contradicting the claimed soft success. -/
theorem C3_counterexample :
    (startEmulator (selectedEmulatorName C3env) C3env.boot).ready = false ∧
    (startEmulator (selectedEmulatorName C3env) C3env.boot).returned = true ∧
    ensureDeviceAvailable C3env =
      ({ success := false,
         error := some "Emulator started but may still be booting. Please try again in a moment." },
       [Event.confirmBootPrompt, Event.bootEmulator "Pixel_6_API_34"]) := by
  refine ⟨by decide, by decide, by decide⟩

/-- C3 amended: after the user accepts the boot and the emulator process
spawns, `startEmulator` always reports success (soft success with a warning
when the poll is exhausted), but `ensureDeviceAvailable` performs one more
registry refresh and succeeds only if a ready device is then visible;
otherwise it returns a hard failure carrying the "may still be booting"
message. -/
theorem C3_boot_timeout_amended (env : ProvisionEnv)
    (h0 : getAvailableDevices env.devices0 = [])
    (h1 : env.canStartEmulator = true)
    (h2 : env.availableEmulators.length > 0)
    (h3 : env.confirmStart = true)
    (h4 : env.boot.spawnFails = false) :
    (startEmulator (selectedEmulatorName env) env.boot).returned = true ∧
    (ensureDeviceAvailable env).1 =
      (if (getAvailableDevices env.devicesAfterBoot).length > 0 then
        { success := true, error := none }
      else
        { success := false,
          error := some "Emulator started but may still be booting. Please try again in a moment." }) := by
  constructor
  · unfold startEmulator
    simp [h4, startEmulatorPoll_returned]
  · unfold ensureDeviceAvailable
    simp only [h0, List.length_nil, beq_self_eq_true, if_true, h1, h3]
    have hgt : (0 < env.availableEmulators.length) := h2
    simp only [hgt, if_true]
    split <;> exact bootAndRecheck_fst _ _ h4

/-- C3 amended witness: the amended statement evaluated at the concrete
timeout scenario `C3env`. -/
theorem C3_boot_timeout_amended_witness :
    (startEmulator (selectedEmulatorName C3env) C3env.boot).returned = true ∧
    (ensureDeviceAvailable C3env).1 =
      (if (getAvailableDevices C3env.devicesAfterBoot).length > 0 then
        { success := true, error := none }
      else
        { success := false,
          error := some "Emulator started but may still be booting. Please try again in a moment." }) :=
  C3_boot_timeout_amended C3env (by decide) (by decide) (by decide) (by decide) (by decide)

/-- `AdbManager.installApk` (`src/core/adb.ts:163-199`): if adb is missing,
fail without running the installer; otherwise run `adb install` and, on a
non-zero exit, pass the raw output through `analyzeInstallError`. The
`classifyCall` event records that `analyzeInstallError` executes on this
path. -/
def installApk (adbAvailable : Bool) (runSuccess : Bool) (errorOutput : String) :
    InstallResult × List Event :=
  if !adbAvailable then
    ({ success := false, error := some "ADB is not available",
       errorType := some .UNKNOWN,
       suggestion := some "Please ensure Android SDK is installed and ADB is in PATH" }, [])
  else if runSuccess then
    ({ success := true }, [Event.installCall])
  else
    (analyzeInstallError errorOutput, [Event.installCall, Event.classifyCall errorOutput])

/-- `launchAppAndComplete` (`src/commands/build.ts:111-133`): launch the app;
a launch failure is only warned about, the returned result is success either
way. -/
def launchAppAndComplete (launchOk : Bool) : BuildResult × List Event :=
  if launchOk then
    ({ success := true }, [Event.launchCall])
  else
    ({ success := true }, [Event.launchCall, Event.warnLaunchFailed])

/-- The three choices of the insufficient-storage prompt
(`src/commands/build.ts:182-189`); `select` can only resolve to a listed
value, so the switch's `default:` arm is unreachable and not modelled. -/
inductive StorageChoice
  | uninstall
  | clear
  | skip
  deriving DecidableEq, Repr

/-- The three choices of the duplicate-package prompt
(`src/commands/build.ts:264-271`). -/
inductive DuplicateChoice
  | force
  | clear
  | skip
  deriving DecidableEq, Repr

/-- Collaborator oracle for the recovery flows and the launch step: adb
availability, outcomes of the uninstall / clear-data calls, the retry
install's process outcome and raw output, and the launch outcome. -/
structure RecoveryEnv where
  adbAvailable : Bool := true
  uninstallOk : Bool
  clearOk : Bool
  retryRunSuccess : Bool
  retryErrorOutput : String
  launchOk : Bool
  deriving DecidableEq, Repr

/-- `handleInsufficientStorage` (`src/commands/build.ts:173-253`). -/
def handleInsufficientStorage (env : RecoveryEnv) (choice : StorageChoice) :
    BuildResult × List Event :=
  match choice with
  | .uninstall =>
    let evs := [Event.storageChoicePrompt, Event.uninstallCall]
    if env.uninstallOk then
      let ir := installApk env.adbAvailable env.retryRunSuccess env.retryErrorOutput
      if ir.1.success then
        let lr := launchAppAndComplete env.launchOk
        (lr.1, evs ++ ir.2 ++ lr.2)
      else
        ({ success := false, error := some ("Installation failed again: " ++ jsInterp ir.1.error) },
          evs ++ ir.2)
    else
      ({ success := false, error := some "Failed to uninstall existing app" }, evs)
  | .clear =>
    let evs := [Event.storageChoicePrompt, Event.clearDataCall]
    if env.clearOk then
      let ir := installApk env.adbAvailable env.retryRunSuccess env.retryErrorOutput
      if ir.1.success then
        let lr := launchAppAndComplete env.launchOk
        (lr.1, evs ++ ir.2 ++ lr.2)
      else
        ({ success := false, error := some ("Installation failed again: " ++ jsInterp ir.1.error) },
          evs ++ ir.2)
    else
      ({ success := false, error := some "Failed to clear app data" }, evs)
  | .skip =>
    ({ success := false, error := some "Installation skipped due to insufficient storage" },
      [Event.storageChoicePrompt])

/-- `handleDuplicatePackage` (`src/commands/build.ts:255-318`): force
reinstall ignores the uninstall result; the clear-data branch treats the
existing installation as the install outcome and performs no reinstall. -/
def handleDuplicatePackage (env : RecoveryEnv) (choice : DuplicateChoice) :
    BuildResult × List Event :=
  match choice with
  | .force =>
    let evs := [Event.duplicateChoicePrompt, Event.uninstallCall]
    let ir := installApk env.adbAvailable env.retryRunSuccess env.retryErrorOutput
    if ir.1.success then
      let lr := launchAppAndComplete env.launchOk
      (lr.1, evs ++ ir.2 ++ lr.2)
    else
      ({ success := false, error := some ("Force reinstall failed: " ++ jsInterp ir.1.error) },
        evs ++ ir.2)
  | .clear =>
    let evs := [Event.duplicateChoicePrompt, Event.clearDataCall]
    if env.clearOk then
      let lr := launchAppAndComplete env.launchOk
      (lr.1, evs ++ lr.2)
    else
      ({ success := false, error := some "Failed to clear app data" }, evs)
  | .skip =>
    ({ success := false, error := some "Installation skipped - app already exists" },
      [Event.duplicateChoicePrompt])

/-- `handleInstallationFailure` (`src/commands/build.ts:135-171`): dispatch on
the classified error type; unclassified failures are surfaced directly (the
storage-info display is pure logging and not modelled). -/
def handleInstallationFailure (env : RecoveryEnv) (sc : StorageChoice) (dc : DuplicateChoice)
    (installResult : InstallResult) : BuildResult × List Event :=
  match installResult.errorType with
  | some .INSUFFICIENT_STORAGE => handleInsufficientStorage env sc
  | some .DUPLICATE_PACKAGE => handleDuplicatePackage env dc
  | _ => ({ success := false, error := some (jsOr installResult.error "APK installation failed") }, [])

/-- Helper: `analyzeInstallError` echoes the raw output in its `error` field. -/
theorem analyzeInstallError_err (s : String) :
    (analyzeInstallError s).error = some s := by
  unfold analyzeInstallError
  dsimp only
  split_ifs <;> rfl

/-- Helper: `analyzeInstallError` always yields a failed result. -/
theorem analyzeInstallError_failed (s : String) :
    (analyzeInstallError s).success = false := by
  unfold analyzeInstallError
  dsimp only
  split_ifs <;> rfl

/-- Recovery environment reproducing the C1 retry-failure scenario: the
remediation (uninstall) succeeds, the retried `adb install` fails again with
the same raw diagnostic. -/
def C1env : RecoveryEnv :=
  { adbAvailable := true, uninstallOk := true, clearOk := true,
    retryRunSuccess := false,
    retryErrorOutput := "INSTALL_FAILED_INSUFFICIENT_STORAGE",
    launchOk := true }

/-- C1 counterexample: when the single install retry fails, the recovery flow
does return the hard failure quoting the retry's diagnostic, but
`analyzeInstallError` is invoked again on that diagnostic — the retried
`installApk` call passes its failure output through the classifier (whose
classification is then discarded), so "without invoking the classifier
again" is false on the code. -/
theorem C1_counterexample :
    Event.classifyCall "INSTALL_FAILED_INSUFFICIENT_STORAGE" ∈
      (handleInsufficientStorage C1env StorageChoice.uninstall).2 ∧
    (handleInsufficientStorage C1env StorageChoice.uninstall).1 =
      { success := false,
        error := some "Installation failed again: INSTALL_FAILED_INSUFFICIENT_STORAGE" } := by
  refine ⟨by decide, by decide⟩

/-- C1 amended: each recovery flow performs at most one install call beyond
the original failing attempt, and when the remediation succeeded but the
retry fails, it returns a hard failure quoting the retry's diagnostic without
re-entering recovery; the retry's raw output does pass through
`analyzeInstallError` (inside `installApk`) exactly once, but its
classification is discarded. -/
theorem C1_recovery_retry_bound (env : RecoveryEnv) (sc : StorageChoice) (dc : DuplicateChoice) :
    (handleInsufficientStorage env sc).2.count Event.installCall ≤ 1 ∧
    (handleDuplicatePackage env dc).2.count Event.installCall ≤ 1 ∧
    (env.adbAvailable = true → env.retryRunSuccess = false →
      (env.uninstallOk = true →
        (handleInsufficientStorage env StorageChoice.uninstall).1 =
          { success := false,
            error := some ("Installation failed again: " ++ env.retryErrorOutput) } ∧
        (handleInsufficientStorage env StorageChoice.uninstall).2.count
          (Event.classifyCall env.retryErrorOutput) = 1) ∧
      (env.clearOk = true →
        (handleInsufficientStorage env StorageChoice.clear).1 =
          { success := false,
            error := some ("Installation failed again: " ++ env.retryErrorOutput) }) ∧
      (handleDuplicatePackage env DuplicateChoice.force).1 =
        { success := false,
          error := some ("Force reinstall failed: " ++ env.retryErrorOutput) }) := by
  refine ⟨?_, ?_, ?_⟩
  · cases sc <;>
      by_cases ha : env.adbAvailable <;> by_cases hu : env.uninstallOk <;>
        by_cases hc : env.clearOk <;> by_cases hr : env.retryRunSuccess <;>
          by_cases hl : env.launchOk <;>
            simp [handleInsufficientStorage, installApk, launchAppAndComplete,
              ha, hu, hc, hr, hl, analyzeInstallError_failed,
              List.count_append, List.count_cons, List.count_nil]
  · cases dc <;>
      by_cases ha : env.adbAvailable <;> by_cases hc : env.clearOk <;>
        by_cases hr : env.retryRunSuccess <;> by_cases hl : env.launchOk <;>
          simp [handleDuplicatePackage, installApk, launchAppAndComplete,
            ha, hc, hr, hl, analyzeInstallError_failed,
            List.count_append, List.count_cons, List.count_nil]
  · intro ha hr
    refine ⟨?_, ?_, ?_⟩
    · intro hu
      constructor
      · simp [handleInsufficientStorage, installApk, ha, hu, hr,
          analyzeInstallError_failed, analyzeInstallError_err, jsInterp]
      · simp [handleInsufficientStorage, installApk, ha, hu, hr,
          analyzeInstallError_failed, List.count_append, List.count_cons, List.count_nil]
    · intro hc
      simp [handleInsufficientStorage, installApk, ha, hc, hr,
        analyzeInstallError_failed, analyzeInstallError_err, jsInterp]
    · simp [handleDuplicatePackage, installApk, ha, hr,
        analyzeInstallError_failed, analyzeInstallError_err, jsInterp]

/-- C1 amended witness: the amended bound and retry-failure shape evaluated at
the concrete scenario `C1env`. -/
theorem C1_recovery_retry_bound_witness :
    (handleInsufficientStorage C1env StorageChoice.uninstall).2.count Event.installCall ≤ 1 ∧
    ((handleInsufficientStorage C1env StorageChoice.uninstall).1 =
      { success := false,
        error := some ("Installation failed again: " ++ C1env.retryErrorOutput) } ∧
     (handleInsufficientStorage C1env StorageChoice.uninstall).2.count
        (Event.classifyCall C1env.retryErrorOutput) = 1) :=
  ⟨(C1_recovery_retry_bound C1env StorageChoice.uninstall DuplicateChoice.force).1,
   ((C1_recovery_retry_bound C1env StorageChoice.uninstall DuplicateChoice.force).2.2
      (by decide) (by decide)).1 (by decide)⟩

/-- C8: in insufficient-storage recovery, if the chosen remediation
(uninstall or clear-data) itself fails, the flow returns a hard failure
naming that sub-failure and performs no install retry. -/
theorem C8_remediation_failure (env : RecoveryEnv) :
    (env.uninstallOk = false →
      handleInsufficientStorage env StorageChoice.uninstall =
        ({ success := false, error := some "Failed to uninstall existing app" },
          [Event.storageChoicePrompt, Event.uninstallCall]) ∧
      Event.installCall ∉ (handleInsufficientStorage env StorageChoice.uninstall).2) ∧
    (env.clearOk = false →
      handleInsufficientStorage env StorageChoice.clear =
        ({ success := false, error := some "Failed to clear app data" },
          [Event.storageChoicePrompt, Event.clearDataCall]) ∧
      Event.installCall ∉ (handleInsufficientStorage env StorageChoice.clear).2) := by
  constructor
  · intro hu
    have he : handleInsufficientStorage env StorageChoice.uninstall =
        ({ success := false, error := some "Failed to uninstall existing app" },
          [Event.storageChoicePrompt, Event.uninstallCall]) := by
      simp [handleInsufficientStorage, hu]
    exact ⟨he, by simp [he]⟩
  · intro hc
    have he : handleInsufficientStorage env StorageChoice.clear =
        ({ success := false, error := some "Failed to clear app data" },
          [Event.storageChoicePrompt, Event.clearDataCall]) := by
      simp [handleInsufficientStorage, hc]
    exact ⟨he, by simp [he]⟩

/-- C8 witness: both remediation-failure branches evaluated at a concrete
environment in which uninstall and clear-data fail. -/
theorem C8_remediation_failure_witness :
    (handleInsufficientStorage
        { adbAvailable := true, uninstallOk := false, clearOk := false,
          retryRunSuccess := true, retryErrorOutput := "", launchOk := true }
        StorageChoice.uninstall =
      ({ success := false, error := some "Failed to uninstall existing app" },
        [Event.storageChoicePrompt, Event.uninstallCall]) ∧
     Event.installCall ∉ (handleInsufficientStorage
        { adbAvailable := true, uninstallOk := false, clearOk := false,
          retryRunSuccess := true, retryErrorOutput := "", launchOk := true }
        StorageChoice.uninstall).2) :=
  (C8_remediation_failure _).1 (by decide)

/-- C10: in both recovery flows the skip choice returns `{success: false}`
with an explanatory message, and performs no uninstall, clear-data, install,
or launch call. -/
theorem C10_skip_reports_failure (env : RecoveryEnv) :
    handleInsufficientStorage env StorageChoice.skip =
      ({ success := false, error := some "Installation skipped due to insufficient storage" },
        [Event.storageChoicePrompt]) ∧
    handleDuplicatePackage env DuplicateChoice.skip =
      ({ success := false, error := some "Installation skipped - app already exists" },
        [Event.duplicateChoicePrompt]) ∧
    (∀ e, e ∈ (handleInsufficientStorage env StorageChoice.skip).2 ∨
          e ∈ (handleDuplicatePackage env DuplicateChoice.skip).2 →
      e ≠ Event.installCall ∧ e ≠ Event.uninstallCall ∧
      e ≠ Event.clearDataCall ∧ e ≠ Event.launchCall) := by
  refine ⟨rfl, rfl, ?_⟩
  intro e he
  rcases he with he | he <;>
    simp [handleInsufficientStorage, handleDuplicatePackage] at he <;>
      subst he <;> exact ⟨by decide, by decide, by decide, by decide⟩

/-- C10 witness: the two skip equalities evaluated at a concrete recovery
environment. -/
theorem C10_skip_reports_failure_witness :
    handleInsufficientStorage
        { adbAvailable := true, uninstallOk := true, clearOk := true,
          retryRunSuccess := true, retryErrorOutput := "", launchOk := true }
        StorageChoice.skip =
      ({ success := false, error := some "Installation skipped due to insufficient storage" },
        [Event.storageChoicePrompt]) ∧
    handleDuplicatePackage
        { adbAvailable := true, uninstallOk := true, clearOk := true,
          retryRunSuccess := true, retryErrorOutput := "", launchOk := true }
        DuplicateChoice.skip =
      ({ success := false, error := some "Installation skipped - app already exists" },
        [Event.duplicateChoicePrompt]) :=
  ⟨(C10_skip_reports_failure _).1, (C10_skip_reports_failure _).2.1⟩

/-- The persisted configuration fields the orchestration core reads and
writes (`AndroidCliConfig` in `src/config/schema.ts`, restricted to
`defaultVariant` and `selectedDevice`). -/
structure Config where
  defaultVariant : String
  selectedDevice : Option String := none
  deriving DecidableEq, Repr

/-- `BuildOptions` from `src/commands/build.ts:8-12`. -/
structure BuildOptions where
  variant : Option String := none
  device : Option String := none
  interactive : Bool := false
  deriving DecidableEq, Repr

/-- `GradleBuildResult` from `src/core/gradle-wrapper.ts:7-12`. -/
structure GradleBuildResult where
  success : Bool
  duration : Nat := 0
  apkPath : Option String := none
  error : Option String := none
  deriving DecidableEq, Repr

/-- Outcome of the variant-selection step: chosen variant, updated
configuration and the events issued. -/
structure VariantSel where
  variant : String
  cfg : Config
  events : List Event
  deriving DecidableEq, Repr

/-- Outcome of the device-resolution step. -/
structure DeviceSel where
  targetId : String
  cfg : Config
  events : List Event
  deriving DecidableEq, Repr

/-- Collaborator oracle for one `buildCommand` invocation: the project's
declared variants and package name, the prompt answers, the provisioning
oracle, the device-list refresh after provisioning, the gradle outcome, the
first install attempt's process outcome and raw output, the recovery oracle,
and the two recovery prompt answers. -/
structure BuildSessionEnv where
  availableVariants : List String
  packageName : String
  variantAnswer : String
  provision : ProvisionEnv
  devicesRefresh : List AndroidDevice
  deviceAnswer : String
  gradle : GradleBuildResult
  installRunSuccess : Bool
  installErrorOutput : String
  recovery : RecoveryEnv
  storageChoice : StorageChoice
  duplicateChoice : DuplicateChoice
  deriving DecidableEq, Repr

/-- Variant selection (`src/commands/build.ts:347-372`): start from the
explicit option or the persisted default; in interactive mode with no
explicit variant, always prompt (preselecting the persisted default) and
persist the answer when it differs from the current default. -/
def selectVariantStep (opts : BuildOptions) (cfg : Config) (env : BuildSessionEnv) : VariantSel :=
  if opts.interactive && !(jsTruthy opts.variant) then
    let variant := env.variantAnswer
    if variant == cfg.defaultVariant then
      { variant := variant, cfg := cfg, events := [Event.variantPrompt cfg.defaultVariant] }
    else
      { variant := variant, cfg := { cfg with defaultVariant := variant },
        events := [Event.variantPrompt cfg.defaultVariant, Event.persistVariant variant] }
  else
    { variant := jsOr opts.variant cfg.defaultVariant, cfg := cfg, events := [] }

/-- Device resolution (`src/commands/build.ts:394-420`): reuse the explicit
or persisted device when it is still among the ready devices; otherwise
auto-select a sole ready device, or prompt; either re-selection is persisted.
The source's `select` throws on an empty choice list, so the prompt branch is
faithful only for non-empty device lists. -/
def resolveDeviceStep (opts : BuildOptions) (cfg : Config)
    (availableDevices : List AndroidDevice) (deviceAnswer : String) : DeviceSel :=
  let targetDeviceId := jsOrO opts.device cfg.selectedDevice
  if !(jsTruthy targetDeviceId) ||
      (availableDevices.find? (fun d => d.id == targetDeviceId.getD "")).isNone then
    if availableDevices.length == 1 then
      let id := (availableDevices.headD
        { id := "", name := "", state := .offline, type := .device }).id
      { targetId := id, cfg := { cfg with selectedDevice := some id },
        events := [Event.persistDevice id] }
    else
      { targetId := deviceAnswer, cfg := { cfg with selectedDevice := some deviceAnswer },
        events := [Event.deviceSelectPrompt, Event.persistDevice deviceAnswer] }
  else
    { targetId := targetDeviceId.getD "", cfg := cfg, events := [] }

/-- Overall outcome of one `buildCommand` invocation. -/
structure CommandOutcome where
  result : BuildResult
  config : Config
  events : List Event
  deriving DecidableEq, Repr

/-- `buildCommand` from `src/commands/build.ts:320-465`, from the variant
determination onward (configuration loading and project detection are I/O
preambles whose success the claims presuppose): select the variant, validate
it, ensure a device, refresh the device list, resolve the target device, run
gradle, install, and either launch or enter installation-failure recovery. -/
def buildCommand (opts : BuildOptions) (cfg : Config) (env : BuildSessionEnv) : CommandOutcome :=
  let vs := selectVariantStep opts cfg env
  if !(env.availableVariants.contains vs.variant) then
    let msg := "Invalid build variant: " ++ vs.variant ++ ". Available variants: " ++
      String.intercalate ", " env.availableVariants
    { result := { success := false, error := some msg },
      config := vs.cfg, events := vs.events }
  else
    let pr := ensureDeviceAvailable env.provision
    if !pr.1.success then
      { result := { success := false, error := pr.1.error },
        config := vs.cfg, events := vs.events ++ pr.2 }
    else
      let availableDevices := getAvailableDevices env.devicesRefresh
      let ds := resolveDeviceStep opts vs.cfg availableDevices env.deviceAnswer
      match getDeviceById env.devicesRefresh ds.targetId with
      | none =>
        let msg := "Device " ++ ds.targetId ++ " not found or not available."
        { result := { success := false, error := some msg },
          config := ds.cfg, events := vs.events ++ pr.2 ++ ds.events }
      | some _ =>
        let evs0 := vs.events ++ pr.2 ++ ds.events ++ [Event.gradleBuild vs.variant]
        if !env.gradle.success then
          let msg := jsOr env.gradle.error "Build failed. Please check the error messages above."
          { result := { success := false, error := some msg },
            config := ds.cfg, events := evs0 }
        else if !(jsTruthy env.gradle.apkPath) then
          { result := { success := false, error := some "Build succeeded but APK path not found." },
            config := ds.cfg, events := evs0 }
        else
          let ir := installApk env.recovery.adbAvailable env.installRunSuccess env.installErrorOutput
          if ir.1.success then
            let lr := launchAppAndComplete env.recovery.launchOk
            { result := lr.1, config := ds.cfg, events := evs0 ++ ir.2 ++ lr.2 }
          else
            let hr := handleInstallationFailure env.recovery env.storageChoice env.duplicateChoice ir.1
            { result := hr.1, config := ds.cfg, events := evs0 ++ ir.2 ++ hr.2 }

/-- A ready emulator device used by the concrete scenarios. -/
def devA : AndroidDevice :=
  { id := "emulator-5554", name := "Pixel 6", state := .device, type := .emulator }

/-- A second ready (physical) device used by the concrete scenarios. -/
def devB : AndroidDevice :=
  { id := "R58M123ABC", name := "Galaxy S21", state := .device, type := .device }

/-- Provisioning oracle for scenarios that already have a ready device. -/
def readyProvision : ProvisionEnv :=
  { devices0 := [devA], canStartEmulator := true, availableEmulators := [],
    confirmStart := false, emulatorChoice := "",
    boot := { spawnFails := false, pollSnapshots := [] }, devicesAfterBoot := [] }

/-- Recovery oracle in which every external call succeeds. -/
def baseRecovery : RecoveryEnv :=
  { adbAvailable := true, uninstallOk := true, clearOk := true,
    retryRunSuccess := true, retryErrorOutput := "", launchOk := true }

/-- A fully successful interactive build session against `devA`. -/
def baseEnv : BuildSessionEnv :=
  { availableVariants := ["debug", "release"], packageName := "com.example.app",
    variantAnswer := "debug", provision := readyProvision,
    devicesRefresh := [devA], deviceAnswer := "emulator-5554",
    gradle := { success := true, duration := 1000, apkPath := some "app-debug.apk" },
    installRunSuccess := true, installErrorOutput := "",
    recovery := baseRecovery, storageChoice := .skip, duplicateChoice := .skip }

/-- Persisted configuration with a valid default variant and `devA` selected. -/
def baseCfg : Config := { defaultVariant := "debug", selectedDevice := some "emulator-5554" }

/-- The options the interactive menu passes to `buildCommand`
(`src/ui/interactive-menu.ts:114`): interactive, no explicit variant or
device. -/
def interactiveOpts : BuildOptions := { variant := none, device := none, interactive := true }

/-- C2 amended witness: the table refinement evaluated at one of the spec's
own example diagnostics. -/
theorem C2_classifier_refines_table_witness :
    analyzeInstallError "INSTALL_FAILED_ALREADY_EXISTS" =
      { success := false, error := some "INSTALL_FAILED_ALREADY_EXISTS",
        errorType := some (classifyDiagnostic "INSTALL_FAILED_ALREADY_EXISTS").1,
        suggestion := some (classifyDiagnostic "INSTALL_FAILED_ALREADY_EXISTS").2 } :=
  C2_classifier_refines_table "INSTALL_FAILED_ALREADY_EXISTS"

/-- C5 counterexample: in an interactive session with no explicit variant and
a persisted default variant that is a member of the declared variant set, the
claim says the default is used silently without prompting — but the code
issues the variant prompt anyway. -/
theorem C5_counterexample :
    baseCfg.defaultVariant ∈ baseEnv.availableVariants ∧
    interactiveOpts.variant = none ∧
    Event.variantPrompt baseCfg.defaultVariant ∈
      (buildCommand interactiveOpts baseCfg baseEnv).events := by
  refine ⟨by decide, rfl, by decide⟩

/-- C5 amended: an explicit caller-supplied variant suppresses the prompt; in
interactive mode without one the prompt is always issued (preselecting the
persisted default, persisting an answer that differs), regardless of whether
the persisted default is valid; in non-interactive mode the explicit variant
or persisted default is used silently; any resulting variant outside the
declared set makes the command fail before any device or build work. -/
theorem C5_variant_selection_amended (opts : BuildOptions) (cfg : Config) (env : BuildSessionEnv) :
    ((opts.interactive && !(jsTruthy opts.variant)) = true →
      (selectVariantStep opts cfg env).variant = env.variantAnswer ∧
      Event.variantPrompt cfg.defaultVariant ∈ (selectVariantStep opts cfg env).events ∧
      (env.variantAnswer ≠ cfg.defaultVariant →
        (selectVariantStep opts cfg env).cfg.defaultVariant = env.variantAnswer ∧
        Event.persistVariant env.variantAnswer ∈ (selectVariantStep opts cfg env).events) ∧
      (env.variantAnswer = cfg.defaultVariant →
        (selectVariantStep opts cfg env).cfg = cfg ∧
        (selectVariantStep opts cfg env).events = [Event.variantPrompt cfg.defaultVariant])) ∧
    ((opts.interactive && !(jsTruthy opts.variant)) = false →
      selectVariantStep opts cfg env =
        { variant := jsOr opts.variant cfg.defaultVariant, cfg := cfg, events := [] }) ∧
    (env.availableVariants.contains (selectVariantStep opts cfg env).variant = false →
      (buildCommand opts cfg env).result.success = false ∧
      (buildCommand opts cfg env).events = (selectVariantStep opts cfg env).events) := by
  refine ⟨?_, ?_, ?_⟩
  · intro h
    by_cases hv : env.variantAnswer = cfg.defaultVariant
    · have hb : (env.variantAnswer == cfg.defaultVariant) = true := by simp [hv]
      simp [selectVariantStep, h, hb, hv]
    · have hb : (env.variantAnswer == cfg.defaultVariant) = false := by simp [hv]
      simp [selectVariantStep, h, hb, hv]
  · intro h
    simp [selectVariantStep, h]
  · intro h
    have hm : (selectVariantStep opts cfg env).variant ∉ env.availableVariants := by
      simpa using h
    constructor
    · simp [buildCommand, hm]
    · simp [buildCommand, hm]

/-- C5 amended witness: the interactive-prompt branch of the amended claim
evaluated at the concrete session (valid persisted default, answer equal to
it). -/
theorem C5_variant_selection_amended_witness :
    (selectVariantStep interactiveOpts baseCfg baseEnv).variant = baseEnv.variantAnswer ∧
    Event.variantPrompt baseCfg.defaultVariant ∈
      (selectVariantStep interactiveOpts baseCfg baseEnv).events ∧
    (selectVariantStep interactiveOpts baseCfg baseEnv).cfg = baseCfg ∧
    (selectVariantStep interactiveOpts baseCfg baseEnv).events =
      [Event.variantPrompt baseCfg.defaultVariant] :=
  ⟨((C5_variant_selection_amended interactiveOpts baseCfg baseEnv).1 (by decide)).1,
   ((C5_variant_selection_amended interactiveOpts baseCfg baseEnv).1 (by decide)).2.1,
   (((C5_variant_selection_amended interactiveOpts baseCfg baseEnv).1 (by decide)).2.2.2
      (by decide)).1,
   (((C5_variant_selection_amended interactiveOpts baseCfg baseEnv).1 (by decide)).2.2.2
      (by decide)).2⟩

/-- C7: device resolution reuses a still-ready explicit/persisted device
without prompting; otherwise a sole ready device is auto-selected without
prompting (and persisted); otherwise the user is prompted and the choice
persisted; the prompt is issued only when more than one ready device exists.
The non-empty hypothesis reflects that the source's `select` throws on an
empty choice list, so resolution is only entered with ready devices
available. -/
theorem C7_device_resolution (opts : BuildOptions) (cfg : Config)
    (devs : List AndroidDevice) (ans : String) (hne : devs ≠ []) :
    ((!(jsTruthy (jsOrO opts.device cfg.selectedDevice)) ||
        (devs.find? (fun d => d.id == (jsOrO opts.device cfg.selectedDevice).getD "")).isNone)
          = false →
      (resolveDeviceStep opts cfg devs ans).targetId =
        (jsOrO opts.device cfg.selectedDevice).getD "" ∧
      (resolveDeviceStep opts cfg devs ans).cfg = cfg ∧
      (resolveDeviceStep opts cfg devs ans).events = []) ∧
    ((!(jsTruthy (jsOrO opts.device cfg.selectedDevice)) ||
        (devs.find? (fun d => d.id == (jsOrO opts.device cfg.selectedDevice).getD "")).isNone)
          = true →
      (devs.length = 1 →
        (resolveDeviceStep opts cfg devs ans).targetId =
          (devs.headD { id := "", name := "", state := .offline, type := .device }).id ∧
        Event.deviceSelectPrompt ∉ (resolveDeviceStep opts cfg devs ans).events ∧
        (resolveDeviceStep opts cfg devs ans).cfg.selectedDevice =
          some (resolveDeviceStep opts cfg devs ans).targetId ∧
        Event.persistDevice (resolveDeviceStep opts cfg devs ans).targetId ∈
          (resolveDeviceStep opts cfg devs ans).events) ∧
      (devs.length ≠ 1 →
        (resolveDeviceStep opts cfg devs ans).targetId = ans ∧
        Event.deviceSelectPrompt ∈ (resolveDeviceStep opts cfg devs ans).events ∧
        (resolveDeviceStep opts cfg devs ans).cfg.selectedDevice = some ans ∧
        Event.persistDevice ans ∈ (resolveDeviceStep opts cfg devs ans).events)) ∧
    (Event.deviceSelectPrompt ∈ (resolveDeviceStep opts cfg devs ans).events →
      1 < devs.length) := by
  refine ⟨?_, ?_, ?_⟩
  · intro h
    simp [resolveDeviceStep, h]
  · intro h
    constructor
    · intro hlen
      have hb : (devs.length == 1) = true := by simp [hlen]
      simp [resolveDeviceStep, h, hb]
    · intro hlen
      have hb : (devs.length == 1) = false := by simp [hlen]
      simp [resolveDeviceStep, h, hb]
  · intro hmem
    by_cases h : (!(jsTruthy (jsOrO opts.device cfg.selectedDevice)) ||
        (devs.find? (fun d => d.id == (jsOrO opts.device cfg.selectedDevice).getD "")).isNone)
        = true
    · by_cases hlen : devs.length = 1
      · have hb : (devs.length == 1) = true := by simp [hlen]
        simp [resolveDeviceStep, h, hb] at hmem
      · have hb : (devs.length == 1) = false := by simp [hlen]
        have hpos : 0 < devs.length := List.length_pos.mpr hne
        omega
    · have hf : (!(jsTruthy (jsOrO opts.device cfg.selectedDevice)) ||
          (devs.find? (fun d => d.id == (jsOrO opts.device cfg.selectedDevice).getD "")).isNone)
          = false := by
        cases hx : (!(jsTruthy (jsOrO opts.device cfg.selectedDevice)) ||
          (devs.find? (fun d => d.id == (jsOrO opts.device cfg.selectedDevice).getD "")).isNone) with
        | false => rfl
        | true => exact absurd hx h
      simp [resolveDeviceStep, hf] at hmem

/-- C7 witness: resolution over two ready devices with nothing persisted —
the prompt case — evaluated concretely. -/
theorem C7_device_resolution_witness :
    (resolveDeviceStep {} { defaultVariant := "debug" } [devA, devB] "R58M123ABC").targetId =
      "R58M123ABC" ∧
    Event.deviceSelectPrompt ∈
      (resolveDeviceStep {} { defaultVariant := "debug" } [devA, devB] "R58M123ABC").events ∧
    (resolveDeviceStep {} { defaultVariant := "debug" } [devA, devB] "R58M123ABC").cfg.selectedDevice =
      some "R58M123ABC" ∧
    Event.persistDevice "R58M123ABC" ∈
      (resolveDeviceStep {} { defaultVariant := "debug" } [devA, devB] "R58M123ABC").events :=
  ((C7_device_resolution {} { defaultVariant := "debug" } [devA, devB] "R58M123ABC"
      (by decide)).2.1 (by decide)).2 (by decide)

/-- Session identical to `baseEnv` except that the app launch fails. -/
def C4env : BuildSessionEnv :=
  { baseEnv with recovery := { baseRecovery with launchOk := false } }

/-- C4: whenever a build cycle reaches a successful install, the overall
result is `{success: true}` regardless of the launch outcome; a launch
failure is recorded only as a warning. -/
theorem C4_launch_failure_soft (opts : BuildOptions) (cfg : Config) (env : BuildSessionEnv)
    (dev : AndroidDevice)
    (hvar : env.availableVariants.contains (selectVariantStep opts cfg env).variant = true)
    (hprov : (ensureDeviceAvailable env.provision).1.success = true)
    (hfound : getDeviceById env.devicesRefresh
        (resolveDeviceStep opts (selectVariantStep opts cfg env).cfg
          (getAvailableDevices env.devicesRefresh) env.deviceAnswer).targetId = some dev)
    (hbuild : env.gradle.success = true)
    (happ : jsTruthy env.gradle.apkPath = true)
    (hadb : env.recovery.adbAvailable = true)
    (hinst : env.installRunSuccess = true) :
    (buildCommand opts cfg env).result = { success := true, error := none } ∧
    (env.recovery.launchOk = false →
      Event.warnLaunchFailed ∈ (buildCommand opts cfg env).events) := by
  have hm : (selectVariantStep opts cfg env).variant ∈ env.availableVariants := by
    simpa using hvar
  constructor
  · unfold buildCommand
    simp [hm, hprov, hfound, hbuild, happ, hadb, hinst, installApk, launchAppAndComplete]
    by_cases hl : env.recovery.launchOk <;> simp [hl, hm]
  · intro hl
    unfold buildCommand
    simp [hm, hprov, hfound, hbuild, happ, hadb, hinst, hl, installApk, launchAppAndComplete]

/-- C4 witness: the concrete session in which everything up to the launch
succeeds and the launch fails. -/
theorem C4_launch_failure_soft_witness :
    (buildCommand interactiveOpts baseCfg C4env).result = { success := true, error := none } ∧
    Event.warnLaunchFailed ∈ (buildCommand interactiveOpts baseCfg C4env).events :=
  ⟨(C4_launch_failure_soft interactiveOpts baseCfg C4env devA (by decide) (by decide) (by decide)
      (by decide) (by decide) (by decide) (by decide)).1,
   (C4_launch_failure_soft interactiveOpts baseCfg C4env devA (by decide) (by decide) (by decide)
      (by decide) (by decide) (by decide) (by decide)).2 (by decide)⟩

/-- The two answers of the build-failure menu (`handleBuildFailure`,
`src/ui/interactive-menu.ts:45-47`): retry or return to the main menu. -/
inductive FailureAction
  | retry
  | menu
  deriving DecidableEq, Repr

/-- The four answers of the post-success menu (`handleBuildSuccess`,
`src/ui/interactive-menu.ts:49-86`). -/
inductive PostBuildAction
  | logcat
  | build
  | device
  | menu
  deriving DecidableEq, Repr

/-- The keep-alive build flow (`src/ui/interactive-menu.ts:111-135`): each
iteration invokes `buildCommand { interactive: true }` afresh; on success the
post-success menu either rebuilds (loop) or leaves the flow; on failure the
retry menu either loops or leaves. The singleton configuration the source
reloads each iteration is modelled by threading the previous invocation's
configuration. `fuel` bounds the number of iterations; exhausted fuel or
oracle lists end the trace. -/
def buildFlow : Nat → Config → List BuildSessionEnv → List FailureAction →
    List PostBuildAction → Config × List Event
  | 0, cfg, _, _, _ => (cfg, [])
  | _ + 1, cfg, [], _, _ => (cfg, [])
  | fuel + 1, cfg, env :: rest, failAns, succAns =>
    let out := buildCommand interactiveOpts cfg env
    if out.result.success then
      match succAns with
      | [] => (out.config, out.events)
      | a :: restSucc =>
        match a with
        | .build =>
          let next := buildFlow fuel out.config rest failAns restSucc
          (next.1, out.events ++ [Event.postSuccessPrompt] ++ next.2)
        | _ => (out.config, out.events ++ [Event.postSuccessPrompt])
    else
      match failAns with
      | [] => (out.config, out.events)
      | a :: restFail =>
        match a with
        | .retry =>
          let next := buildFlow fuel out.config rest restFail succAns
          (next.1, out.events ++ [Event.retryMenuPrompt] ++ next.2)
        | .menu => (out.config, out.events ++ [Event.retryMenuPrompt])

/-- Session identical to `baseEnv` except that the gradle build fails. -/
def C6env : BuildSessionEnv :=
  { baseEnv with
    gradle := { success := false, duration := 42, apkPath := none,
                error := some "Compilation failed. See the build output above." } }

/-- Helper: variant selection never touches the persisted device field. -/
theorem selectVariantStep_selectedDevice (opts : BuildOptions) (cfg : Config)
    (env : BuildSessionEnv) :
    (selectVariantStep opts cfg env).cfg.selectedDevice = cfg.selectedDevice := by
  unfold selectVariantStep
  dsimp only
  split_ifs <;> rfl

/-- C6 counterexample: in a keep-alive session whose build fails twice, with
Retry chosen after the first failure, the variant prompt is issued twice —
once per `buildCommand` invocation — so the variant is re-prompted on retry,
contrary to the claim; the device is indeed reused without any device
prompt. -/
theorem C6_counterexample :
    (buildFlow 2 baseCfg [C6env, C6env] [FailureAction.retry, FailureAction.menu] []).2.count
      (Event.variantPrompt "debug") = 2 ∧
    (buildFlow 2 baseCfg [C6env, C6env] [FailureAction.retry, FailureAction.menu] []).2.count
      Event.deviceSelectPrompt = 0 := by
  refine ⟨by decide, by decide⟩

/-- C6 amended: choosing Retry after a failure re-invokes the build command
from scratch with interactive options and no explicit variant or device (the
trace continues with a fresh full invocation against the updated persisted
configuration), and choosing ReturnToMenu ends the flow; every such fresh
interactive invocation re-issues the variant prompt (preselecting the
persisted default), while the device identifier is reused from the persisted
selection without a device prompt as long as it is still among the ready
devices. -/
theorem C6_retry_reinvokes_build (fuel : Nat) (cfg : Config) (env : BuildSessionEnv)
    (rest : List BuildSessionEnv) (restFail : List FailureAction)
    (succAns : List PostBuildAction)
    (hfail : (buildCommand interactiveOpts cfg env).result.success = false) :
    buildFlow (fuel + 1) cfg (env :: rest) (FailureAction.retry :: restFail) succAns =
      ((buildFlow fuel (buildCommand interactiveOpts cfg env).config rest restFail succAns).1,
        (buildCommand interactiveOpts cfg env).events ++ [Event.retryMenuPrompt] ++
          (buildFlow fuel (buildCommand interactiveOpts cfg env).config rest restFail succAns).2) ∧
    buildFlow (fuel + 1) cfg (env :: rest) (FailureAction.menu :: restFail) succAns =
      ((buildCommand interactiveOpts cfg env).config,
        (buildCommand interactiveOpts cfg env).events ++ [Event.retryMenuPrompt]) ∧
    (∀ cfg' env', Event.variantPrompt cfg'.defaultVariant ∈
        (buildCommand interactiveOpts cfg' env').events) ∧
    (∀ cfg' env', jsTruthy cfg'.selectedDevice = true →
      ((getAvailableDevices env'.devicesRefresh).find?
          (fun d => d.id == cfg'.selectedDevice.getD "")).isNone = false →
      Event.deviceSelectPrompt ∉
        (resolveDeviceStep interactiveOpts (selectVariantStep interactiveOpts cfg' env').cfg
          (getAvailableDevices env'.devicesRefresh) env'.deviceAnswer).events) := by
  refine ⟨?_, ?_, ?_, ?_⟩
  · simp [buildFlow, hfail]
  · simp [buildFlow, hfail]
  · intro cfg' env'
    have hv : Event.variantPrompt cfg'.defaultVariant ∈
        (selectVariantStep interactiveOpts cfg' env').events := by
      unfold selectVariantStep
      by_cases hb : env'.variantAnswer == cfg'.defaultVariant <;>
        simp [interactiveOpts, jsTruthy, hb]
    unfold buildCommand
    dsimp only
    repeat' split
    all_goals simp [List.mem_append, hv]
  · intro cfg' env' htruthy hfound
    have hsel : (selectVariantStep interactiveOpts cfg' env').cfg.selectedDevice =
        cfg'.selectedDevice := selectVariantStep_selectedDevice _ _ _
    have htid : jsOrO interactiveOpts.device
        (selectVariantStep interactiveOpts cfg' env').cfg.selectedDevice =
        cfg'.selectedDevice := by
      rw [hsel]
      simp [interactiveOpts, jsOrO, jsTruthy]
    unfold resolveDeviceStep
    simp [htid, htruthy, hfound]

/-- C6 amended witness: the retry transition evaluated at the concrete
twice-failing session. -/
theorem C6_retry_reinvokes_build_witness :
    buildFlow 2 baseCfg [C6env, C6env] [FailureAction.retry, FailureAction.menu] [] =
      ((buildFlow 1 (buildCommand interactiveOpts baseCfg C6env).config [C6env]
          [FailureAction.menu] []).1,
        (buildCommand interactiveOpts baseCfg C6env).events ++ [Event.retryMenuPrompt] ++
          (buildFlow 1 (buildCommand interactiveOpts baseCfg C6env).config [C6env]
            [FailureAction.menu] []).2) :=
  (C6_retry_reinvokes_build 1 baseCfg C6env [C6env] [FailureAction.menu] []
    (by decide)).1

end DroidCli
